import Mathlib

/-!
Verification of the expo-updates `useUpdates` core: the state reducer that folds a
native state-machine context into the public hook state, the internal
completion-event handling, the `readLogEntries` dispatcher, and the hook
lifecycle of `useUpdateEvents` and `useUpdates`.

Sources embedded:
- `packages/expo-updates/src/UpdatesHooks.ts` (`useUpdateEvents`,
  `useNativeStateMachineContext`);
- the compiled `UseUpdates.js` module (`checkForUpdate`, `downloadUpdate`,
  `runUpdate`, `readLogEntries`, `useUpdates`);
- `reduceUpdatesStateFromContext`, `availableUpdateFromContext` and
  `defaultUseUpdatesState` live in `UseUpdatesUtils`, which is not part of the
  sources here; they are modelled from the specification (section 4.2 and the
  data model of section 3), as marked on each definition.
-/

/-- An error value as surfaced by the native module and the log reader:
`{name, code, message}` (spec section 7). -/
structure UpdatesError where
  name : String
  code : String
  message : String
deriving DecidableEq, Repr

/-- A manifest describing one update bundle (spec section 3). The opaque
`metadata` mapping is not modelled; no code path under verification reads it. -/
structure Manifest where
  id : String
  createdAt : String
  runtimeVersion : String
  launchAssetUrl : String
  assets : List String
deriving DecidableEq, Repr

/-- One log entry as returned by `Updates.readLogEntriesAsync`. The core treats
entries as opaque ordered items; only the payload matters here. -/
structure LogEntry where
  message : String
deriving DecidableEq, Repr

/-- The native state-machine context snapshot
(`UpdatesNativeStateMachineContext` in `Updates.types`). Fields as listed in
spec section 3 and in the literal initial value of `useNativeStateMachineContext`
(UpdatesHooks.ts lines 57-68). -/
structure UpdatesNativeStateMachineContext where
  isUpdateAvailable : Bool
  isUpdatePending : Bool
  isRollback : Bool
  isChecking : Bool
  isDownloading : Bool
  isRestarting : Bool
  checkError : Option UpdatesError
  downloadError : Option UpdatesError
  latestManifest : Option Manifest
  downloadedManifest : Option Manifest
deriving DecidableEq, Repr

/-- Derived information about an update (spec section 3, `AvailableUpdate`):
`{ updateId, createdAt, manifest }`. The code parses `createdAt` into a date
object; the model keeps the timestamp string, which the parse is a function of. -/
structure AvailableUpdate where
  updateId : String
  createdAt : String
  manifest : Manifest
deriving DecidableEq, Repr

/-- The public state produced by `useUpdates` (spec section 3,
`UseUpdatesState`). The wall-clock timestamp `lastCheckForUpdateTimeAsync` is a
natural number (milliseconds). -/
structure UseUpdatesState where
  availableUpdate : Option AvailableUpdate
  downloadedUpdate : Option AvailableUpdate
  isUpdateAvailable : Bool
  isUpdatePending : Bool
  isChecking : Bool
  isDownloading : Bool
  lastCheckForUpdateTimeAsync : Option Nat
  error : Option UpdatesError
  logEntries : Option (List LogEntry)
deriving DecidableEq, Repr

/-- Modelled from the spec: `defaultUseUpdatesState` of `UseUpdatesUtils`
(not under the sources here). Spec section 3 lifecycle: the state is created
with a default, all-false, all-undefined value. -/
def defaultUseUpdatesState : UseUpdatesState where
  availableUpdate := none
  downloadedUpdate := none
  isUpdateAvailable := false
  isUpdatePending := false
  isChecking := false
  isDownloading := false
  lastCheckForUpdateTimeAsync := none
  error := none
  logEntries := none

/-- Modelled from the spec: `availableUpdateFromContext` of `UseUpdatesUtils`
(not under the sources here). Spec section 4.2 step 2: the derived
`availableUpdate` is present iff `context.latestManifest` is set and
`context.isRollback` is false; the unit tests exercise exactly this shape
(`result.updateId`, `result.createdAt`, `result.manifest`). -/
def availableUpdateFromContext (context : UpdatesNativeStateMachineContext) :
    Option AvailableUpdate :=
  match context.latestManifest with
  | some manifest =>
      if context.isRollback then none
      else some { updateId := manifest.id, createdAt := manifest.createdAt,
                  manifest := manifest }
  | none => none

/-- Modelled from the spec: the `downloadedUpdate` derivation of
`UseUpdatesUtils` (not under the sources here). Spec section 4.2 step 3: derived
analogously to `availableUpdate`, from `context.downloadedManifest`. -/
def downloadedUpdateFromContext (context : UpdatesNativeStateMachineContext) :
    Option AvailableUpdate :=
  match context.downloadedManifest with
  | some manifest =>
      if context.isRollback then none
      else some { updateId := manifest.id, createdAt := manifest.createdAt,
                  manifest := manifest }
  | none => none

/-- Modelled from the spec: `reduceUpdatesStateFromContext` of
`UseUpdatesUtils` (not under the sources here), following the algorithm of spec
section 4.2 step by step. Step 1 stamps the current time on the transition out
of checking (the previous state carried `isChecking` and the new context does
not); the wall clock the stamp reads is made an explicit `now` argument, so that
dependence on it is visible in the model. Steps 2-3 derive the update info,
step 4 copies the four flags from the context, step 5 sets `error` with
`checkError` taking precedence over `downloadError`. Fields the algorithm does
not mention (`logEntries`) are carried over from the previous state. -/
def reduceUpdatesStateFromContext (updatesState : UseUpdatesState)
    (context : UpdatesNativeStateMachineContext) (now : Nat) : UseUpdatesState :=
  { updatesState with
    lastCheckForUpdateTimeAsync :=
      if updatesState.isChecking && !context.isChecking then some now
      else updatesState.lastCheckForUpdateTimeAsync
    availableUpdate := availableUpdateFromContext context
    downloadedUpdate := downloadedUpdateFromContext context
    isUpdateAvailable := context.isUpdateAvailable
    isUpdatePending := context.isUpdatePending
    isChecking := context.isChecking
    isDownloading := context.isDownloading
    error :=
      match context.checkError with
      | some e => some e
      | none => context.downloadError }

/-- An internal completion event of the `useUpdates` core
(`UseUpdatesInternalEventType` in `UseUpdates.types`). The `useUpdates` handler
switches on the event type and handles `ERROR` (payload `error`) and
`READ_LOG_ENTRIES_COMPLETE` (payload `logEntries`); every other type falls to
the default branch, represented by the `OTHER` constructor. -/
inductive UseUpdatesInternalEvent where
  | ERROR (error : UpdatesError)
  | READ_LOG_ENTRIES_COMPLETE (logEntries : List LogEntry)
  | OTHER
deriving DecidableEq, Repr

/-- The internal-event handler registered by `useUpdates` through
`useUpdatesInternalEvents` (UseUpdates.js lines 195-212): on `ERROR` it spreads
the previous state and overwrites `error`; on `READ_LOG_ENTRIES_COMPLETE` it
spreads the previous state and overwrites `logEntries`; the default branch
leaves the state untouched. -/
def handleInternalEvent (updatesState : UseUpdatesState)
    (event : UseUpdatesInternalEvent) : UseUpdatesState :=
  match event with
  | .ERROR error => { updatesState with error := some error }
  | .READ_LOG_ENTRIES_COMPLETE logEntries =>
      { updatesState with logEntries := some logEntries }
  | .OTHER => updatesState

/-- The externally observable behaviour of one `readLogEntries` call: the
`maxAge` arguments passed to `Updates.readLogEntriesAsync`, in call order, and
the internal events published through `emitUseUpdatesEvent`, in emission
order. -/
structure ReadLogEntriesRun where
  nativeCalls : List Nat
  emitted : List UseUpdatesInternalEvent
deriving DecidableEq, Repr

/-- The `readLogEntries` dispatcher (UseUpdates.js lines 121-135). It invokes
`Updates.readLogEntriesAsync(maxAge)` once, with `maxAge` defaulting to
3600000 ms, and attaches a `then` and a `catch` to the returned promise: the
eventual settlement of that promise is the explicit `outcome` argument of the
model. The `then` branch emits a `READ_LOG_ENTRIES_COMPLETE` event carrying the
entries, the `catch` branch emits an `ERROR` event carrying the error. The
dispatcher is total: an operation failure is consumed by the `catch` branch and
never thrown back to the caller. -/
def readLogEntries (outcome : Except UpdatesError (List LogEntry))
    (maxAge : Nat := 3600000) : ReadLogEntriesRun where
  nativeCalls := [maxAge]
  emitted :=
    match outcome with
    | .ok logEntries => [.READ_LOG_ENTRIES_COMPLETE logEntries]
    | .error error => [.ERROR error]

/-- The literal initial value of `localState` inside
`useNativeStateMachineContext` (UpdatesHooks.ts lines 57-68): all flags false,
all optional fields undefined. -/
def defaultNativeContext : UpdatesNativeStateMachineContext where
  isUpdateAvailable := false
  isUpdatePending := false
  isRollback := false
  isChecking := false
  isDownloading := false
  isRestarting := false
  checkError := none
  downloadError := none
  latestManifest := none
  downloadedManifest := none

/-- The successive values assigned to `localState` by the mount effect of
`useNativeStateMachineContext` (UpdatesHooks.ts lines 69-77): first the context
resolved by `Updates.getNativeStateMachineContextAsync()`, then the context of
each state-change event delivered to the `addUpdatesStateChangeListener`
subscription, in delivery order. -/
def contextUpdates (fetched : UpdatesNativeStateMachineContext)
    (snapshots : List UpdatesNativeStateMachineContext) :
    List UpdatesNativeStateMachineContext :=
  fetched :: snapshots

/-- React semantics of an effect whose dependency list is a single state value:
the effect body runs once after the initial render, observing the initial value
of the dependency, and once after each render caused by an update of the
dependency, observing the updated value. Returns the dependency values the
effect body observes, in run order. -/
def effectRuns {α : Type} (initial : α) (updates : List α) : List α :=
  initial :: updates

/-- The contexts `useUpdates` passes to `reduceUpdatesStateFromContext`, in
order. `useUpdates` (UseUpdates.js lines 187-193) reads the context from
`useNativeStateMachineContext` and reduces it inside an effect with dependency
list `[context]`: the effect runs once on mount with the default initial
context and once per subsequent context update (the fetched current context,
then each state-change snapshot). -/
def reducedContexts (fetched : UpdatesNativeStateMachineContext)
    (snapshots : List UpdatesNativeStateMachineContext) :
    List UpdatesNativeStateMachineContext :=
  effectRuns defaultNativeContext (contextUpdates fetched snapshots)

/-- The lifecycle state of one activation of `useUpdateEvents`
(UpdatesHooks.ts lines 31-47): `ref` is `listenerRef.current`, `subscribed` is
the listener function value held by the `addListener` subscription (`none` when
no subscription is active). The listener type is abstract: the code never
inspects it. -/
structure UseUpdateEventsActivation (L : Type) where
  ref : Option L
  subscribed : Option L

/-- Mounting `useUpdateEvents` with listener `l`. React runs the two effects in
declaration order: the first effect (lines 34-36) stores the listener in the
ref, then the mount-only effect (lines 38-46) reads `listenerRef.current` and,
when it is set, registers that function value with `addListener`. -/
def mountEvents {L : Type} (l : L) : UseUpdateEventsActivation L :=
  let ref : Option L := some l
  { ref := ref
    subscribed :=
      match ref with
      | some f => some f
      | none => none }

/-- A re-render of `useUpdateEvents` with a (possibly different) listener
argument: only the first effect re-runs (its dependency is `[listener]`),
updating the ref; the mount-only effect has an empty dependency list and does
not run again, so the subscription keeps the function it was registered with. -/
def rerenderEvents {L : Type} (st : UseUpdateEventsActivation L) (l : L) :
    UseUpdateEventsActivation L :=
  { st with ref := some l }

/-- A sequence of re-renders of `useUpdateEvents`, folding `rerenderEvents`
over the listener argument of each render in order. -/
def rerendersEvents {L : Type} (st : UseUpdateEventsActivation L) (ls : List L) :
    UseUpdateEventsActivation L :=
  ls.foldl rerenderEvents st

/-- Unmounting `useUpdateEvents`: the cleanup of the mount-only effect
(lines 41-43) calls `subscription.remove()`, dropping the registered listener. -/
def unmountEvents {L : Type} (st : UseUpdateEventsActivation L) :
    UseUpdateEventsActivation L :=
  { st with subscribed := none }

/-- A concrete manifest, shaped like the one in the component tests. -/
def sampleManifest : Manifest where
  id := "0000-2222"
  createdAt := "2023-03-26T04:58:02.560Z"
  runtimeVersion := "1.0.0"
  launchAssetUrl := "testUrl"
  assets := []

/-- A concrete error value, shaped like the one in the component tests. -/
def sampleError : UpdatesError where
  name := "UpdatesError"
  code := "ERR_TEST"
  message := "test message"

/-- A concrete log entry. -/
def sampleLogEntry : LogEntry where
  message := "log line"

/-- A context with only the checking flag raised. -/
def checkingContext : UpdatesNativeStateMachineContext :=
  { defaultNativeContext with isChecking := true }

/-- A rollback context that nevertheless carries a latest manifest. -/
def rollbackContext : UpdatesNativeStateMachineContext :=
  { defaultNativeContext with isRollback := true,
                              latestManifest := some sampleManifest }

/-- A context carrying a check error. -/
def checkErrorContext : UpdatesNativeStateMachineContext :=
  { defaultNativeContext with checkError := some sampleError }

/-- A state recording that the previous context had the checking flag raised. -/
def checkingState : UseUpdatesState :=
  { defaultUseUpdatesState with isChecking := true }

/-- Claim C2: the reducer is idempotent. Reducing the same context a second
time from the state it just produced yields that same state, whatever the
clock reads at either invocation. -/
theorem reduce_idempotent (s : UseUpdatesState)
    (c : UpdatesNativeStateMachineContext) (t₁ t₂ : Nat) :
    reduceUpdatesStateFromContext (reduceUpdatesStateFromContext s c t₁) c t₂ =
      reduceUpdatesStateFromContext s c t₁ := by
  simp only [reduceUpdatesStateFromContext]
  cases hc : c.isChecking <;> simp [hc]

/-- Claim C3: rollback exclusion. For every state, clock reading and context
with the rollback flag raised, the produced state has no available update,
even when the context carries a latest manifest. -/
theorem reduce_rollback_excludes_available (s : UseUpdatesState)
    (c : UpdatesNativeStateMachineContext) (t : Nat) (h : c.isRollback = true) :
    (reduceUpdatesStateFromContext s c t).availableUpdate = none := by
  simp only [reduceUpdatesStateFromContext, availableUpdateFromContext]
  cases hm : c.latestManifest <;> simp [h, hm]

/-- Witness for claim C3 at a concrete rollback context carrying a manifest. -/
theorem reduce_rollback_excludes_available_witness :
    (reduceUpdatesStateFromContext defaultUseUpdatesState rollbackContext 0).availableUpdate
      = none :=
  reduce_rollback_excludes_available defaultUseUpdatesState rollbackContext 0 rfl

/-- Claim C7: error precedence. The produced error equals the context check
error when present, else the context download error when present, else it is
undefined, clearing any prior error carried in the previous state. -/
theorem reduce_error_precedence (s : UseUpdatesState)
    (c : UpdatesNativeStateMachineContext) (t : Nat) :
    (∀ e, c.checkError = some e →
        (reduceUpdatesStateFromContext s c t).error = some e) ∧
    (c.checkError = none → ∀ e, c.downloadError = some e →
        (reduceUpdatesStateFromContext s c t).error = some e) ∧
    (c.checkError = none → c.downloadError = none →
        (reduceUpdatesStateFromContext s c t).error = none) := by
  refine ⟨fun e he => ?_, fun hc e hd => ?_, fun hc hd => ?_⟩
  · simp [reduceUpdatesStateFromContext, he]
  · simp [reduceUpdatesStateFromContext, hc, hd]
  · simp [reduceUpdatesStateFromContext, hc, hd]

/-- Witness for claim C7 at a concrete context carrying a check error. -/
theorem reduce_error_precedence_witness :
    (reduceUpdatesStateFromContext defaultUseUpdatesState checkErrorContext 0).error
      = some sampleError :=
  (reduce_error_precedence defaultUseUpdatesState checkErrorContext 0).1 sampleError rfl

/-- Claim C8: flag fidelity. The four boolean flags of the produced state
equal the correspondingly named context flags exactly. -/
theorem reduce_flag_fidelity (s : UseUpdatesState)
    (c : UpdatesNativeStateMachineContext) (t : Nat) :
    (reduceUpdatesStateFromContext s c t).isUpdateAvailable = c.isUpdateAvailable ∧
    (reduceUpdatesStateFromContext s c t).isUpdatePending = c.isUpdatePending ∧
    (reduceUpdatesStateFromContext s c t).isChecking = c.isChecking ∧
    (reduceUpdatesStateFromContext s c t).isDownloading = c.isDownloading := by
  refine ⟨rfl, rfl, rfl, rfl⟩

/-- Claim C1, counterexample: the reducer is not self-contained in its two
arguments. On the transition out of checking (previous state checking, new
context not checking) the output depends on the wall-clock reading: two
evaluations at clock values 0 and 1 differ. -/
theorem reduce_depends_on_clock :
    reduceUpdatesStateFromContext checkingState defaultNativeContext 0 ≠
      reduceUpdatesStateFromContext checkingState defaultNativeContext 1 := by
  decide

/-- Claim C1, amended: the reducer is deterministic in its two arguments
except for the clock read on the transition out of checking. Whenever the
previous state was not checking, or the new context is still checking, two
evaluations at arbitrary clock readings produce equal outputs. -/
theorem reduce_clock_independent_off_transition (s : UseUpdatesState)
    (c : UpdatesNativeStateMachineContext) (t₁ t₂ : Nat)
    (h : s.isChecking = true → c.isChecking = true) :
    reduceUpdatesStateFromContext s c t₁ = reduceUpdatesStateFromContext s c t₂ := by
  simp only [reduceUpdatesStateFromContext]
  cases hs : s.isChecking
  · simp
  · simp [h hs]

/-- Witness for the amended claim C1 at a non-checking previous state. -/
theorem reduce_clock_independent_off_transition_witness :
    reduceUpdatesStateFromContext defaultUseUpdatesState defaultNativeContext 0 =
      reduceUpdatesStateFromContext defaultUseUpdatesState defaultNativeContext 7 :=
  reduce_clock_independent_off_transition defaultUseUpdatesState defaultNativeContext 0 7
    (by decide)

/-- Claim C4: frame effect of completion-event handling. Handling an ERROR
event sets only the error field, every other field keeping its prior value;
handling a READ_LOG_ENTRIES_COMPLETE event sets only the logEntries field,
every other field, the error included, keeping its prior value. -/
theorem handle_completion_frame (s : UseUpdatesState) (e : UpdatesError)
    (ls : List LogEntry) :
    (handleInternalEvent s (.ERROR e)).error = some e ∧
    (handleInternalEvent s (.ERROR e)).availableUpdate = s.availableUpdate ∧
    (handleInternalEvent s (.ERROR e)).downloadedUpdate = s.downloadedUpdate ∧
    (handleInternalEvent s (.ERROR e)).isUpdateAvailable = s.isUpdateAvailable ∧
    (handleInternalEvent s (.ERROR e)).isUpdatePending = s.isUpdatePending ∧
    (handleInternalEvent s (.ERROR e)).isChecking = s.isChecking ∧
    (handleInternalEvent s (.ERROR e)).isDownloading = s.isDownloading ∧
    (handleInternalEvent s (.ERROR e)).lastCheckForUpdateTimeAsync
      = s.lastCheckForUpdateTimeAsync ∧
    (handleInternalEvent s (.ERROR e)).logEntries = s.logEntries ∧
    (handleInternalEvent s (.READ_LOG_ENTRIES_COMPLETE ls)).logEntries = some ls ∧
    (handleInternalEvent s (.READ_LOG_ENTRIES_COMPLETE ls)).availableUpdate
      = s.availableUpdate ∧
    (handleInternalEvent s (.READ_LOG_ENTRIES_COMPLETE ls)).downloadedUpdate
      = s.downloadedUpdate ∧
    (handleInternalEvent s (.READ_LOG_ENTRIES_COMPLETE ls)).isUpdateAvailable
      = s.isUpdateAvailable ∧
    (handleInternalEvent s (.READ_LOG_ENTRIES_COMPLETE ls)).isUpdatePending
      = s.isUpdatePending ∧
    (handleInternalEvent s (.READ_LOG_ENTRIES_COMPLETE ls)).isChecking = s.isChecking ∧
    (handleInternalEvent s (.READ_LOG_ENTRIES_COMPLETE ls)).isDownloading
      = s.isDownloading ∧
    (handleInternalEvent s (.READ_LOG_ENTRIES_COMPLETE ls)).lastCheckForUpdateTimeAsync
      = s.lastCheckForUpdateTimeAsync ∧
    (handleInternalEvent s (.READ_LOG_ENTRIES_COMPLETE ls)).error = s.error := by
  exact ⟨rfl, rfl, rfl, rfl, rfl, rfl, rfl, rfl, rfl, rfl, rfl, rfl, rfl, rfl, rfl,
    rfl, rfl, rfl⟩

/-- Claim C10: frame effect of the default branch. An internal event whose
type is neither ERROR nor READ_LOG_ENTRIES_COMPLETE leaves the state
completely unchanged. -/
theorem handle_unknown_event_identity (s : UseUpdatesState)
    (e : UseUpdatesInternalEvent)
    (h₁ : ∀ err, e ≠ .ERROR err)
    (h₂ : ∀ ls, e ≠ .READ_LOG_ENTRIES_COMPLETE ls) :
    handleInternalEvent s e = s := by
  cases e with
  | ERROR err => exact absurd rfl (h₁ err)
  | READ_LOG_ENTRIES_COMPLETE ls => exact absurd rfl (h₂ ls)
  | OTHER => rfl

/-- Witness for claim C10 at the OTHER event and the default state. -/
theorem handle_unknown_event_identity_witness :
    handleInternalEvent defaultUseUpdatesState .OTHER = defaultUseUpdatesState :=
  handle_unknown_event_identity defaultUseUpdatesState .OTHER
    (fun _ h => UseUpdatesInternalEvent.noConfusion h)
    (fun _ h => UseUpdatesInternalEvent.noConfusion h)

/-- Claim C5: every readLogEntries call, with maxAge defaulting to 3600000 ms,
invokes the external read exactly once with that maxAge and publishes exactly
one completion event: READ_LOG_ENTRIES_COMPLETE with the ordered entries when
the read succeeds, ERROR with the error when it fails; the dispatcher returns
its run in both cases rather than throwing. -/
theorem readLogEntries_one_call_one_event
    (outcome : Except UpdatesError (List LogEntry)) (maxAge : Nat) :
    (readLogEntries outcome maxAge).nativeCalls = [maxAge] ∧
    (readLogEntries outcome).nativeCalls = [3600000] ∧
    (readLogEntries outcome maxAge).emitted.length = 1 ∧
    (∀ ls, outcome = .ok ls →
      (readLogEntries outcome maxAge).emitted = [.READ_LOG_ENTRIES_COMPLETE ls]) ∧
    (∀ e, outcome = .error e →
      (readLogEntries outcome maxAge).emitted = [.ERROR e]) := by
  cases outcome <;> simp [readLogEntries]

/-- Witness for claim C5 at a successful read of one entry. -/
theorem readLogEntries_one_call_one_event_witness :
    (readLogEntries (.ok [sampleLogEntry]) 5000).emitted
      = [.READ_LOG_ENTRIES_COMPLETE [sampleLogEntry]] :=
  (readLogEntries_one_call_one_event (.ok [sampleLogEntry]) 5000).2.2.2.1
    [sampleLogEntry] rfl

/-- Claim C6, counterexample: the reducer is not invoked only on the fetched
seed context and the incoming snapshots. With a fetched checking context and
no snapshots, the contexts reduced are the hook initial default context
followed by the fetched one, not the fetched one alone. -/
theorem useUpdates_reduces_default_context_first :
    reducedContexts checkingContext [] ≠ [checkingContext] := by
  decide

/-- Claim C6, amended: on first activation useUpdates first reduces the hook
initial all-false default context once (the mount run of the effect), then
reduces the fetched current context exactly once, and thereafter the reducer
runs exactly once per incoming snapshot, in order. -/
theorem useUpdates_reduction_schedule (fetched : UpdatesNativeStateMachineContext)
    (snapshots : List UpdatesNativeStateMachineContext) :
    reducedContexts fetched snapshots = defaultNativeContext :: fetched :: snapshots ∧
    (reducedContexts fetched snapshots).length = snapshots.length + 2 := by
  refine ⟨rfl, ?_⟩
  simp [reducedContexts, effectRuns, contextUpdates]

/-- Helper: re-renders never change the listener held by the subscription. -/
theorem rerendersEvents_subscribed {L : Type} (st : UseUpdateEventsActivation L)
    (ls : List L) : (rerendersEvents st ls).subscribed = st.subscribed := by
  induction ls generalizing st with
  | nil => rfl
  | cons l ls ih =>
      simp only [rerendersEvents, List.foldl_cons] at ih ⊢
      exact ih (rerenderEvents st l)

/-- Claim C9: the subscription of useUpdateEvents holds the listener value
captured at mount. After any sequence of re-renders the subscription still
invokes the mount listener; one more render with any listener updates the
internal ref to that listener while the subscription is unchanged; unmount
removes the subscription and touches nothing else. -/
theorem useUpdateEvents_subscription_fixed_at_mount {L : Type} (l₀ : L)
    (ls : List L) :
    (rerendersEvents (mountEvents l₀) ls).subscribed = some l₀ ∧
    (∀ l, (rerenderEvents (rerendersEvents (mountEvents l₀) ls) l).ref = some l ∧
      (rerenderEvents (rerendersEvents (mountEvents l₀) ls) l).subscribed = some l₀) ∧
    (unmountEvents (rerendersEvents (mountEvents l₀) ls)).subscribed = none ∧
    (unmountEvents (rerendersEvents (mountEvents l₀) ls)).ref =
      (rerendersEvents (mountEvents l₀) ls).ref := by
  have h : (rerendersEvents (mountEvents l₀) ls).subscribed = some l₀ := by
    rw [rerendersEvents_subscribed]
    rfl
  refine ⟨h, fun l => ⟨rfl, ?_⟩, rfl, rfl⟩
  show (rerendersEvents (mountEvents l₀) ls).subscribed = some l₀
  exact h
